import Mathlib

/-!
Verification of the keras-cv augmentation/pooling layers against their
natural-language specification.  The Python sources
`keras_cv/layers/preprocessing/grayscale.py` and
`keras_cv/layers/spatial_pyramid.py` are shallowly embedded: each Python
method becomes a Lean function, `raise ValueError` becomes returning
`Except.error (KerasError.valueError ...)`, and the (read-only) object
state is threaded explicitly where a claim is about state.
-/

/-- Errors a layer method may raise.  `valueError` embeds Python
`ValueError`; `indexError` embeds Python `IndexError` (out-of-range
sequence indexing). -/
inductive KerasError where
  | valueError (msg : String)
  | indexError (msg : String)
deriving DecidableEq

/-- Images in `channels_last` format: a list of `H` rows, each a list of
`W` pixels, each a list of `C` channel values.  Channel values are
rationals (the embedding of the framework float tensor values). -/
abbrev Image := List (List (List ℚ))

/-- Shape predicate: `img` is an `(h, w, c)` tensor. -/
def HasShape (img : Image) (h w c : Nat) : Prop :=
  img.length = h ∧ ∀ row ∈ img, row.length = w ∧ ∀ px ∈ row, px.length = c

instance (img : Image) (h w c : Nat) : Decidable (HasShape img h w c) := by
  unfold HasShape; infer_instance

namespace tf

namespace image

/-- Luminance weights used by `tf.image.rgb_to_grayscale`
(`rgb_weights = [0.2989, 0.5870, 0.1140]`). -/
def rgb_weights : List ℚ := [2989/10000, 5870/10000, 1140/10000]

/-- Per-pixel luminance: dot product of the channel values with
`rgb_weights` (the embedding of the tensordot over the last axis). -/
def luminance (px : List ℚ) : ℚ :=
  (List.zipWith (fun w v => w * v) rgb_weights px).sum

/-- Embedding of `tf.image.rgb_to_grayscale`: contracts the last axis
with the luminance weights, leaving a single channel per pixel. -/
def rgb_to_grayscale (img : Image) : Image :=
  img.map (fun row => row.map (fun px => [luminance px]))

/-- Embedding of `tf.image.grayscale_to_rgb`: tiles the last axis three
times (for a one-channel image this repeats the single value). -/
def grayscale_to_rgb (img : Image) : Image :=
  img.map (fun row => row.map (fun px => px ++ px ++ px))

end image

end tf

/-- State of a `Grayscale` layer: the attributes assigned on `self` by
`Grayscale.__init__` (`self.output_channels`, `self.auto_vectorize`). -/
structure Grayscale where
  output_channels : Int
  auto_vectorize : Bool
deriving DecidableEq

namespace Grayscale

/-- Embedding of `Grayscale.__init__`: stores `output_channels` and sets
`auto_vectorize = False`.  The body contains no `raise` and calls no
validation, so the `Except` (raise) channel is never used. -/
def init (output_channels : Int) : Except KerasError Grayscale :=
  Except.ok { output_channels := output_channels, auto_vectorize := false }

/-- Embedding of `Grayscale._check_input_params`.  Note that nothing in
`grayscale.py` ever calls this method. -/
def check_input_params (g : Grayscale) (output_channels : Int) :
    Except KerasError Grayscale :=
  if output_channels ≠ 1 ∧ output_channels ≠ 3 then
    Except.error (KerasError.valueError
      ("Received invalid argument output_channels. " ++
       "output_channels must be in 1 or 3. Got " ++ toString output_channels))
  else
    Except.ok { g with output_channels := output_channels }

/-- Embedding of `Grayscale.augment_image`. -/
def augment_image (g : Grayscale) (image : Image) : Except KerasError Image :=
  let grayscale := tf.image.rgb_to_grayscale image
  if g.output_channels = 1 then
    Except.ok grayscale
  else if g.output_channels = 3 then
    Except.ok (tf.image.grayscale_to_rgb grayscale)
  else
    Except.error (KerasError.valueError ("Unsupported value for `output_channels`."))

/-- Embedding of `Grayscale.augment_bounding_boxes`: returns its input. -/
def augment_bounding_boxes {β : Type} (_g : Grayscale) (bounding_boxes : β) : β :=
  bounding_boxes

/-- Embedding of `Grayscale.augment_label`: returns its input (the
`transformation` keyword argument is unused). -/
def augment_label {β τ : Type} (_g : Grayscale) (label : β)
    (_transformation : Option τ) : β :=
  label

/-- Embedding of `Grayscale.augment_segmentation_mask`: returns its
input (the `transformation` argument is unused). -/
def augment_segmentation_mask {β τ : Type} (_g : Grayscale)
    (segmentation_mask : β) (_transformation : τ) : β :=
  segmentation_mask

/-- Configuration items contributed by the base augmentation layer.
Modelled from the spec: `BaseImageAugmentationLayer.get_config`
(`keras_cv/layers/preprocessing/base_image_augmentation_layer.py`, not
among the provided sources) exports the base construction parameters as
a flat key-value mapping; `Grayscale.__init__` forwards no construction
parameters to it, so its contribution is the base defaults, modelled as
the empty mapping. -/
def base_config : List (String × Int) := []

/-- Embedding of `Grayscale.get_config`: the base mapping extended with
the `"output_channels"` entry (the `dict(a + b)` idiom, in which later
entries win; `List.lookup` on the reversed concatenation finds the entry
a Python `dict` built this way would hold). -/
def get_config (g : Grayscale) : List (String × Int) :=
  base_config ++ [("output_channels", g.output_channels)]

/-- Embedding of the inherited `from_config` classmethod (Keras default:
`cls(**config)`), which re-invokes `Grayscale.__init__` with the stored
`output_channels` (defaulting to 1 when absent, as in the signature). -/
def from_config (config : List (String × Int)) : Except KerasError Grayscale :=
  init ((config.lookup ("output_channels")).getD 1)

/-- State-passing form of `augment_image`: the method reads
`self.output_channels` and assigns nothing to `self`, so the layer state
after the call is the state before it. -/
def augment_image_st (g : Grayscale) (image : Image) :
    Except KerasError Image × Grayscale :=
  (g.augment_image image, g)

/-- State-passing form of `augment_bounding_boxes` (no writes to `self`). -/
def augment_bounding_boxes_st {β : Type} (g : Grayscale) (bounding_boxes : β) :
    β × Grayscale :=
  (g.augment_bounding_boxes bounding_boxes, g)

/-- State-passing form of `augment_label` (no writes to `self`). -/
def augment_label_st {β τ : Type} (g : Grayscale) (label : β)
    (transformation : Option τ) : β × Grayscale :=
  (g.augment_label label transformation, g)

/-- State-passing form of `augment_segmentation_mask` (no writes to `self`). -/
def augment_segmentation_mask_st {β τ : Type} (g : Grayscale) (mask : β)
    (transformation : τ) : β × Grayscale :=
  (g.augment_segmentation_mask mask transformation, g)

/-- Layer state after a sequence of `augment_image` calls, one per listed
image (each call threaded through the state-passing embedding). -/
def run_images (g : Grayscale) (images : List Image) : Grayscale :=
  images.foldl (fun st img => (st.augment_image_st img).2) g

end Grayscale

/-- Value passed where `SpatialPyramidPooling` expects a dict of levels:
either an actual dict with int keys (an association list, unique keys as
in a Python dict) or some non-dict Python value (e.g. a bare tensor),
remembered only by its printed form for the error message. -/
inductive DictInput (α : Type) where
  | dict (entries : List (Int × α))
  | nonDict (shown : String)
deriving DecidableEq

/-- Embedding of the framework (tf.keras) layer constructors used inside
`SpatialPyramidPooling.build`.  Each field is the tensor function of one
framework layer with the hyperparameters the source passes to it; the
`Option Bool` argument is the `training` flag Keras forwards through a
`Sequential` to layers that honour it (BatchNormalization, Dropout).
These layers are external collaborators, so the development is
parametric in their behaviour. -/
structure FrameworkOps (T : Type) where
  conv2d_1x1 : Int → T → T
  conv2d_3x3_dilated : Int → Int → T → T
  batch_normalization : Option Bool → T → T
  activation_layer : String → T → T
  global_average_pooling2d : T → T
  reshape_1x1 : Int → T → T
  resizing_bilinear : Int → Int → T → T
  dropout_layer : ℚ → Option Bool → T → T
  concat_last_axis : List T → T
  cast_to_dtype_of : T → T → T

/-- Configuration of a `SpatialPyramidPooling` layer: the attributes
assigned by `SpatialPyramidPooling.__init__`. -/
structure SpatialPyramidPooling where
  level : Int
  dilation_rates : List Int
  num_channels : Int
  activation : String
  dropout : ℚ
deriving DecidableEq

/-- State of a `SpatialPyramidPooling` layer after `build` has run: the
configuration plus the attributes `build` assigns
(`self.aspp_parallel_channels` and `self.projection`, each a tensor
function taking the `training` flag). -/
structure SPPBuilt (T : Type) where
  cfg : SpatialPyramidPooling
  aspp_parallel_channels : List (Option Bool → T → T)
  projection : Option Bool → T → T

namespace SpatialPyramidPooling

/-- Embedding of `SpatialPyramidPooling.__init__`: stores the five
configuration attributes.  No validation, no `raise`. -/
def init (level : Int) (dilation_rates : List Int) (num_channels : Int)
    (activation : String) (dropout : ℚ) : SpatialPyramidPooling :=
  { level := level, dilation_rates := dilation_rates,
    num_channels := num_channels, activation := activation,
    dropout := dropout }

/-- Embedding of `SpatialPyramidPooling.build`.  Validates that
`input_shape` is a dict containing `self.level` (raising `ValueError`
otherwise), reads height/width/channels from the shape at that level
(list indexing, which raises `IndexError` when out of range), then
assembles `aspp_parallel_channels` — the 1x1 conv branch, one dilated
3x3 conv branch per dilation rate, and the global-pooling branch — and
the final `projection`, each branch a `Sequential` embedded as function
composition. -/
def build {T : Type} (ops : FrameworkOps T) (spp : SpatialPyramidPooling)
    (input_shape : DictInput (List Int)) : Except KerasError (SPPBuilt T) :=
  match input_shape with
  | DictInput.nonDict shown =>
      Except.error (KerasError.valueError
        ("SpatialPyramidPooling expects input features to be a dict with int keys, " ++
         "received " ++ shown))
  | DictInput.dict shapes =>
      match shapes.lookup spp.level with
      | none =>
          Except.error (KerasError.valueError
            ("SpatialPyramidPooling expect the input dict to contain key " ++
             toString spp.level))
      | some input_shape_at_level =>
          match input_shape_at_level[1]?, input_shape_at_level[2]?,
              input_shape_at_level[3]? with
          | some height, some width, some channels =>
              let conv_sequential := fun (training : Option Bool) (x : T) =>
                ops.activation_layer spp.activation
                  (ops.batch_normalization training
                    (ops.conv2d_1x1 spp.num_channels x))
              let dilated_sequential := fun (rate : Int) (training : Option Bool) (x : T) =>
                ops.activation_layer spp.activation
                  (ops.batch_normalization training
                    (ops.conv2d_3x3_dilated spp.num_channels rate x))
              let pool_sequential := fun (training : Option Bool) (x : T) =>
                ops.resizing_bilinear height width
                  (ops.activation_layer spp.activation
                    (ops.batch_normalization training
                      (ops.conv2d_1x1 spp.num_channels
                        (ops.reshape_1x1 channels
                          (ops.global_average_pooling2d x)))))
              let projection := fun (training : Option Bool) (x : T) =>
                ops.dropout_layer spp.dropout training
                  (ops.activation_layer spp.activation
                    (ops.batch_normalization training
                      (ops.conv2d_1x1 spp.num_channels x)))
              Except.ok
                { cfg := spp,
                  aspp_parallel_channels :=
                    [conv_sequential] ++
                    spp.dilation_rates.map dilated_sequential ++
                    [pool_sequential],
                  projection := projection }
          | _, _, _ =>
              Except.error (KerasError.indexError
                ("tuple index out of range"))

/-- Embedding of `SpatialPyramidPooling.get_config`: the base mapping
(external `tf.keras.layers.Layer.get_config`, not embedded) extended
with the five configuration entries; only the layer-specific entries are
modelled. -/
def get_config (spp : SpatialPyramidPooling) :
    List (String × (Int ⊕ List Int ⊕ String ⊕ ℚ)) :=
  [(("level"), Sum.inl spp.level),
   (("dilation_rates"), Sum.inr (Sum.inl spp.dilation_rates)),
   (("num_channels"), Sum.inl spp.num_channels),
   (("activation"), Sum.inr (Sum.inr (Sum.inl spp.activation))),
   (("dropout"), Sum.inr (Sum.inr (Sum.inr spp.dropout)))]

end SpatialPyramidPooling

namespace SPPBuilt

/-- Embedding of `SpatialPyramidPooling.call`.  Validates that `inputs`
is a dict containing `self.level` (raising `ValueError` otherwise), runs
every parallel channel on the input at that level (casting each result
back to the input dtype), concatenates along the last axis, projects,
and returns a dict holding the single key `self.level`. -/
def call {T : Type} (ops : FrameworkOps T) (l : SPPBuilt T)
    (inputs : DictInput T) (training : Option Bool) :
    Except KerasError (List (Int × T)) :=
  match inputs with
  | DictInput.nonDict shown =>
      Except.error (KerasError.valueError
        ("SpatialPyramidPooling expects input features to be a dict with int keys, " ++
         "received " ++ shown))
  | DictInput.dict entries =>
      match entries.lookup l.cfg.level with
      | none =>
          Except.error (KerasError.valueError
            ("SpatialPyramidPooling expect the input dict to contain key " ++
             toString l.cfg.level))
      | some input_at_level =>
          let result := l.aspp_parallel_channels.map
            (fun channel =>
              ops.cast_to_dtype_of (channel training input_at_level) input_at_level)
          let concatenated := ops.concat_last_axis result
          let projected := l.projection training concatenated
          Except.ok [(l.cfg.level, projected)]

/-- State-passing form of `call`: the method reads `self.level`,
`self.aspp_parallel_channels` and `self.projection` and assigns nothing
to `self`, so the layer state after the call is the state before it. -/
def call_st {T : Type} (ops : FrameworkOps T) (l : SPPBuilt T)
    (inputs : DictInput T) (training : Option Bool) :
    Except KerasError (List (Int × T)) × SPPBuilt T :=
  (l.call ops inputs training, l)

/-- Layer state after a sequence of `call` invocations (each threaded
through the state-passing embedding). -/
def run_calls {T : Type} (ops : FrameworkOps T) (l : SPPBuilt T)
    (invocations : List (DictInput T × Option Bool)) : SPPBuilt T :=
  invocations.foldl (fun st inv => (st.call_st ops inv.1 inv.2).2) l

end SPPBuilt

/-- Input-validity predicate shared by `build` and `call`: the input is
not a dict, or is a dict in which the configured level key is missing. -/
def DictInput.missingLevel {α : Type} (level : Int) : DictInput α → Prop
  | DictInput.dict entries => entries.lookup level = none
  | DictInput.nonDict _ => True

/-- Trivial instantiation of the framework layer constructors, used to
evaluate the parametric theorems on concrete inputs. -/
def natOps : FrameworkOps Nat :=
  { conv2d_1x1 := fun _ x => x,
    conv2d_3x3_dilated := fun _ _ x => x,
    batch_normalization := fun _ x => x,
    activation_layer := fun _ x => x,
    global_average_pooling2d := fun x => x,
    reshape_1x1 := fun _ x => x,
    resizing_bilinear := fun _ _ x => x,
    dropout_layer := fun _ _ x => x,
    concat_last_axis := fun xs => xs.sum,
    cast_to_dtype_of := fun x _ => x }

/-- Concrete built layer (level 3, dilation rates [6, 12, 18]) used to
evaluate the `call` theorems on concrete inputs. -/
def sampleBuilt : SPPBuilt Nat :=
  { cfg := SpatialPyramidPooling.init 3 [6, 12, 18] 256 ("relu") 0,
    aspp_parallel_channels := [fun _ x => x],
    projection := fun _ x => x }

/-- Mapping `tf.image.rgb_to_grayscale` over an image preserves the
spatial dimensions and leaves exactly one channel per pixel. -/
theorem rgb_to_grayscale_shape (img : Image) (h w c : Nat)
    (hs : HasShape img h w c) :
    HasShape (tf.image.rgb_to_grayscale img) h w 1 := by
  obtain ⟨hlen, hrows⟩ := hs
  constructor
  · simpa [tf.image.rgb_to_grayscale] using hlen
  · intro row hrow
    simp only [tf.image.rgb_to_grayscale, List.mem_map] at hrow
    obtain ⟨row0, hrow0, rfl⟩ := hrow
    obtain ⟨hwlen, _⟩ := hrows row0 hrow0
    constructor
    · simpa using hwlen
    · intro px hpx
      simp only [List.mem_map] at hpx
      obtain ⟨px0, _, rfl⟩ := hpx
      rfl

/-- Mapping `tf.image.grayscale_to_rgb` over a one-channel image yields
three channels per pixel, all holding the same value. -/
theorem grayscale_to_rgb_shape (img : Image) (h w : Nat)
    (hs : HasShape img h w 1) :
    HasShape (tf.image.grayscale_to_rgb img) h w 3 ∧
    ∀ row ∈ tf.image.grayscale_to_rgb img, ∀ px ∈ row, ∃ v, px = [v, v, v] := by
  obtain ⟨hlen, hrows⟩ := hs
  refine ⟨⟨by simpa [tf.image.grayscale_to_rgb] using hlen, ?_⟩, ?_⟩
  · intro row hrow
    simp only [tf.image.grayscale_to_rgb, List.mem_map] at hrow
    obtain ⟨row0, hrow0, rfl⟩ := hrow
    obtain ⟨hwlen, hpxs⟩ := hrows row0 hrow0
    refine ⟨by simpa using hwlen, ?_⟩
    intro px hpx
    simp only [List.mem_map] at hpx
    obtain ⟨px0, hpx0, rfl⟩ := hpx
    have h1 := hpxs px0 hpx0
    match px0, h1 with
    | [v], _ => rfl
  · intro row hrow px hpx
    simp only [tf.image.grayscale_to_rgb, List.mem_map] at hrow
    obtain ⟨row0, hrow0, rfl⟩ := hrow
    simp only [List.mem_map] at hpx
    obtain ⟨px0, hpx0, rfl⟩ := hpx
    obtain ⟨_, hpxs⟩ := hrows row0 hrow0
    have h1 := hpxs px0 hpx0
    match px0, h1 with
    | [v], _ => exact ⟨v, rfl⟩

/-- C1: the claim says constructing `Grayscale` with an `output_channels`
value outside 1 and 3 (for example 5) raises a `ValueError` immediately at
construction time.  The code violates this: `Grayscale.__init__` performs
no validation (the validator `_check_input_params`, which would reject 5,
is defined but never called), so `Grayscale(output_channels=5)` constructs
successfully.  This theorem evaluates the code at the failing input:
construction with 5 returns a layer without raising, while the unused
validator (the evident intent, matching the spec) rejects 5. -/
theorem grayscale_construction_skips_validation :
    Grayscale.init 5 =
      Except.ok { output_channels := 5, auto_vectorize := false } ∧
    ∀ g : Grayscale, ∃ msg,
      g.check_input_params 5 = Except.error (KerasError.valueError msg) :=
  ⟨rfl, fun _g => ⟨_, rfl⟩⟩

/-- C2: on an `(h, w, 3)` image, `augment_image` with `output_channels = 1`
returns an `(h, w, 1)` tensor, and with `output_channels = 3` returns an
`(h, w, 3)` tensor in which all three channels of every pixel are equal. -/
theorem grayscale_augment_image_shapes (h w : Nat) (img : Image)
    (hs : HasShape img h w 3) (g1 g3 : Grayscale)
    (h1 : g1.output_channels = 1) (h3 : g3.output_channels = 3) :
    (∃ out, g1.augment_image img = Except.ok out ∧ HasShape out h w 1) ∧
    (∃ out, g3.augment_image img = Except.ok out ∧ HasShape out h w 3 ∧
      ∀ row ∈ out, ∀ px ∈ row, ∃ v, px = [v, v, v]) := by
  constructor
  · refine ⟨tf.image.rgb_to_grayscale img, ?_, ?_⟩
    · simp [Grayscale.augment_image, h1]
    · exact rgb_to_grayscale_shape img h w 3 hs
  · refine ⟨tf.image.grayscale_to_rgb (tf.image.rgb_to_grayscale img), ?_, ?_, ?_⟩
    · simp [Grayscale.augment_image, h3]
    · exact (grayscale_to_rgb_shape _ h w (rgb_to_grayscale_shape img h w 3 hs)).1
    · exact (grayscale_to_rgb_shape _ h w (rgb_to_grayscale_shape img h w 3 hs)).2

/-- Witness for C2 at the concrete 1x1 image [[[10, 20, 30]]]. -/
theorem grayscale_augment_image_shapes_witness :
    HasShape [[[(10 : ℚ), 20, 30]]] 1 1 3 ∧
    (Grayscale.mk 1 false).output_channels = 1 ∧
    (Grayscale.mk 3 false).output_channels = 3 ∧
    ((∃ out, (Grayscale.mk 1 false).augment_image [[[(10 : ℚ), 20, 30]]] =
        Except.ok out ∧ HasShape out 1 1 1) ∧
     (∃ out, (Grayscale.mk 3 false).augment_image [[[(10 : ℚ), 20, 30]]] =
        Except.ok out ∧ HasShape out 1 1 3 ∧
        ∀ row ∈ out, ∀ px ∈ row, ∃ v, px = [v, v, v])) :=
  ⟨by decide, rfl, rfl,
   grayscale_augment_image_shapes 1 1 [[[(10 : ℚ), 20, 30]]] (by decide)
     (Grayscale.mk 1 false) (Grayscale.mk 3 false) rfl rfl⟩

/-- C3: the non-image hooks `augment_bounding_boxes`, `augment_label` and
`augment_segmentation_mask` of `Grayscale` each return their input
exactly unchanged, for every input value. -/
theorem grayscale_nonimage_hooks_identity {β τ : Type} (g : Grayscale)
    (bounding_boxes label mask : β) (t : Option τ) (t2 : τ) :
    g.augment_bounding_boxes bounding_boxes = bounding_boxes ∧
    g.augment_label label t = label ∧
    g.augment_segmentation_mask mask t2 = mask :=
  ⟨rfl, rfl, rfl⟩

/-- C4: `get_config` yields a flat key-value mapping containing
`output_channels`, and reconstructing a layer from that mapping (the
inherited `from_config`, i.e. `cls(**config)`) yields a layer whose
`augment_image` agrees with the original on every input image. -/
theorem grayscale_config_roundtrip (g : Grayscale)
    (hvalid : g.output_channels = 1 ∨ g.output_channels = 3) :
    (Grayscale.get_config g).lookup ("output_channels") = some g.output_channels ∧
    ∃ g2, Grayscale.from_config (Grayscale.get_config g) = Except.ok g2 ∧
      ∀ img, g2.augment_image img = g.augment_image img := by
  obtain ⟨oc, av⟩ := g
  refine ⟨rfl, ⟨oc, false⟩, rfl, fun img => ?_⟩
  simp [Grayscale.augment_image]

/-- Witness for C4 at a layer with `output_channels = 3`. -/
theorem grayscale_config_roundtrip_witness :
    ((Grayscale.mk 3 false).output_channels = 1 ∨
     (Grayscale.mk 3 false).output_channels = 3) ∧
    ((Grayscale.get_config (Grayscale.mk 3 false)).lookup ("output_channels") =
        some (Grayscale.mk 3 false).output_channels ∧
     ∃ g2, Grayscale.from_config (Grayscale.get_config (Grayscale.mk 3 false)) =
        Except.ok g2 ∧
       ∀ img, g2.augment_image img = (Grayscale.mk 3 false).augment_image img) :=
  ⟨Or.inr rfl, grayscale_config_roundtrip (Grayscale.mk 3 false) (Or.inr rfl)⟩

/-- C5: the apply hooks of `Grayscale` are pure and deterministic — equal
inputs give equal outputs — and, in the explicit state-passing embedding,
every hook leaves the layer state exactly as it was (no state persists in
the layer between invocations). -/
theorem grayscale_hooks_pure_stateless {β τ : Type} (g : Grayscale)
    (i1 i2 : Image) (heq : i1 = i2) (bb label mask : β) (t : Option τ) (t2 : τ) :
    g.augment_image_st i1 = g.augment_image_st i2 ∧
    (g.augment_image_st i1).2 = g ∧
    (g.augment_bounding_boxes_st bb).2 = g ∧
    (g.augment_label_st label t).2 = g ∧
    (g.augment_segmentation_mask_st mask t2).2 = g := by
  subst heq
  exact ⟨rfl, rfl, rfl, rfl, rfl⟩

/-- Witness for C5 at a concrete layer and image. -/
theorem grayscale_hooks_pure_stateless_witness :
    ([[[(1 : ℚ), 2, 3]]] : Image) = [[[(1 : ℚ), 2, 3]]] ∧
    ((Grayscale.mk 1 false).augment_image_st [[[(1 : ℚ), 2, 3]]] =
        (Grayscale.mk 1 false).augment_image_st [[[(1 : ℚ), 2, 3]]] ∧
     ((Grayscale.mk 1 false).augment_image_st [[[(1 : ℚ), 2, 3]]]).2 =
        Grayscale.mk 1 false ∧
     ((Grayscale.mk 1 false).augment_bounding_boxes_st (0 : Nat)).2 =
        Grayscale.mk 1 false ∧
     ((Grayscale.mk 1 false).augment_label_st (0 : Nat) (none : Option Nat)).2 =
        Grayscale.mk 1 false ∧
     ((Grayscale.mk 1 false).augment_segmentation_mask_st (0 : Nat) (0 : Nat)).2 =
        Grayscale.mk 1 false) :=
  ⟨rfl, grayscale_hooks_pure_stateless (Grayscale.mk 1 false)
    [[[(1 : ℚ), 2, 3]]] [[[(1 : ℚ), 2, 3]]] rfl (0 : Nat) 0 0 none 0⟩

/-- C10: for every `output_channels` value other than 1 and 3,
construction completes without raising, and `augment_image` then raises
a `ValueError` reading "Unsupported value for `output_channels`." on any
image. -/
theorem grayscale_invalid_output_channels_deferred (oc : Int)
    (h1 : oc ≠ 1) (h3 : oc ≠ 3) :
    ∃ g, Grayscale.init oc = Except.ok g ∧
      ∀ img : Image, g.augment_image img =
        Except.error (KerasError.valueError
          ("Unsupported value for `output_channels`.")) := by
  refine ⟨{ output_channels := oc, auto_vectorize := false }, rfl, fun img => ?_⟩
  simp [Grayscale.augment_image, h1, h3]

/-- Witness for C10 at `output_channels = 5`. -/
theorem grayscale_invalid_output_channels_deferred_witness :
    (5 : Int) ≠ 1 ∧ (5 : Int) ≠ 3 ∧
    ∃ g, Grayscale.init 5 = Except.ok g ∧
      ∀ img : Image, g.augment_image img =
        Except.error (KerasError.valueError
          ("Unsupported value for `output_channels`.")) :=
  ⟨by decide, by decide,
   grayscale_invalid_output_channels_deferred 5 (by decide) (by decide)⟩

/-- Folding any number of `augment_image` calls through the
state-passing embedding leaves the `Grayscale` layer state unchanged. -/
theorem grayscale_run_images_eq (g : Grayscale) (images : List Image) :
    Grayscale.run_images g images = g := by
  induction images with
  | nil => rfl
  | cons i is ih => exact ih

/-- Folding any number of `call` invocations through the state-passing
embedding leaves the `SPPBuilt` layer state unchanged. -/
theorem spp_run_calls_eq {T : Type} (ops : FrameworkOps T) (l : SPPBuilt T)
    (invocations : List (DictInput T × Option Bool)) :
    SPPBuilt.run_calls ops l invocations = l := by
  induction invocations with
  | nil => rfl
  | cons inv invs ih => exact ih

/-- In the branch where the input dict does contain the level, `build`
never raises a `ValueError` (it returns the built layer, or raises
`IndexError` when the shape at the level is too short to index). -/
theorem spp_build_found_no_valueError {T : Type} (ops : FrameworkOps T)
    (spp : SpatialPyramidPooling) (shapes : List (Int × List Int))
    (shape : List Int) (hx : shapes.lookup spp.level = some shape) (msg : String) :
    SpatialPyramidPooling.build ops spp (DictInput.dict shapes) ≠
      Except.error (KerasError.valueError msg) := by
  unfold SpatialPyramidPooling.build
  cases h1 : shape[1]? <;> cases h2 : shape[2]? <;>
    cases h3 : shape[3]? <;> simp [hx, h1, h2, h3]

/-- C6: `SpatialPyramidPooling.call` returns no partial result — for
every input, either the input is a dict containing the configured level
and a complete output dict is returned, or the call raises a
`ValueError` (the `Except.error` branch, which carries no output; the
embedding is pure, so the input value is unchanged in either case). -/
theorem spp_call_no_partial_results {T : Type} (ops : FrameworkOps T)
    (l : SPPBuilt T) (inputs : DictInput T) (training : Option Bool) :
    (∃ entries x, inputs = DictInput.dict entries ∧
        entries.lookup l.cfg.level = some x ∧
        ∃ out, l.call ops inputs training = Except.ok out) ∨
    ∃ msg, l.call ops inputs training =
      Except.error (KerasError.valueError msg) := by
  cases inputs with
  | nonDict s => exact Or.inr ⟨_, rfl⟩
  | dict entries =>
    cases hx : entries.lookup l.cfg.level with
    | none =>
      refine Or.inr ⟨("SpatialPyramidPooling expect the input dict to contain key " ++
        toString l.cfg.level), ?_⟩
      simp [SPPBuilt.call, hx]
    | some x =>
      refine Or.inl ⟨entries, x, rfl, hx,
        ⟨[(l.cfg.level, l.projection training (ops.concat_last_axis
          (l.aspp_parallel_channels.map (fun channel =>
            ops.cast_to_dtype_of (channel training x) x))))], ?_⟩⟩
      simp [SPPBuilt.call, hx]

/-- C7: the configuration fields fixed at construction
(`Grayscale.output_channels`; `SpatialPyramidPooling.level`,
`dilation_rates`, `num_channels`, `activation`, `dropout`) survive any
sequence of apply/call invocations unchanged. -/
theorem config_immutable_across_invocations {T : Type} (ops : FrameworkOps T)
    (g : Grayscale) (images : List Image) (l : SPPBuilt T)
    (invocations : List (DictInput T × Option Bool)) :
    (Grayscale.run_images g images).output_channels = g.output_channels ∧
    (SPPBuilt.run_calls ops l invocations).cfg.level = l.cfg.level ∧
    (SPPBuilt.run_calls ops l invocations).cfg.dilation_rates =
      l.cfg.dilation_rates ∧
    (SPPBuilt.run_calls ops l invocations).cfg.num_channels =
      l.cfg.num_channels ∧
    (SPPBuilt.run_calls ops l invocations).cfg.activation = l.cfg.activation ∧
    (SPPBuilt.run_calls ops l invocations).cfg.dropout = l.cfg.dropout := by
  rw [grayscale_run_images_eq, spp_run_calls_eq]
  exact ⟨rfl, rfl, rfl, rfl, rfl, rfl⟩

/-- C8: on a dict input containing the configured level, `call` returns
a dict with exactly one key, equal to the configured level, however many
other levels the input carries. -/
theorem spp_call_output_exactly_level {T : Type} (ops : FrameworkOps T)
    (l : SPPBuilt T) (entries : List (Int × T)) (training : Option Bool)
    (x : T) (hx : entries.lookup l.cfg.level = some x) :
    ∃ result, l.call ops (DictInput.dict entries) training =
      Except.ok [(l.cfg.level, result)] := by
  refine ⟨l.projection training (ops.concat_last_axis
    (l.aspp_parallel_channels.map (fun channel =>
      ops.cast_to_dtype_of (channel training x) x))), ?_⟩
  simp [SPPBuilt.call, hx]

/-- Witness for C8 on a three-level input dict, of which only level 3 is
configured. -/
theorem spp_call_output_exactly_level_witness :
    (([((2 : Int), (5 : Nat)), (3, 7), (4, 9)]).lookup
        sampleBuilt.cfg.level = some 7) ∧
    ∃ result, sampleBuilt.call natOps
        (DictInput.dict [((2 : Int), (5 : Nat)), (3, 7), (4, 9)]) none =
      Except.ok [(sampleBuilt.cfg.level, result)] :=
  ⟨rfl, spp_call_output_exactly_level natOps sampleBuilt
    [((2 : Int), (5 : Nat)), (3, 7), (4, 9)] none 7 rfl⟩

/-- C9: `build` and `call` raise a `ValueError` exactly when their input
(`input_shape`, resp. `inputs`) is not a dict or is a dict missing the
configured level key. -/
theorem spp_validation_error_iff {T : Type} (ops : FrameworkOps T)
    (spp : SpatialPyramidPooling) (input_shape : DictInput (List Int))
    (l : SPPBuilt T) (inputs : DictInput T) (training : Option Bool) :
    ((∃ msg, SpatialPyramidPooling.build ops spp input_shape =
        Except.error (KerasError.valueError msg)) ↔
      DictInput.missingLevel spp.level input_shape) ∧
    ((∃ msg, l.call ops inputs training =
        Except.error (KerasError.valueError msg)) ↔
      DictInput.missingLevel l.cfg.level inputs) := by
  constructor
  · cases input_shape with
    | nonDict s =>
      simp only [DictInput.missingLevel, iff_true]
      exact ⟨_, rfl⟩
    | dict shapes =>
      cases hx : shapes.lookup spp.level with
      | none =>
        simp only [DictInput.missingLevel, hx, iff_true]
        refine ⟨("SpatialPyramidPooling expect the input dict to contain key " ++
          toString spp.level), ?_⟩
        simp [SpatialPyramidPooling.build, hx]
      | some shape =>
        simp only [DictInput.missingLevel, hx]
        constructor
        · rintro ⟨msg, hmsg⟩
          exact absurd hmsg (spp_build_found_no_valueError ops spp shapes shape hx msg)
        · intro hcontra
          exact absurd hcontra (by simp)
  · cases inputs with
    | nonDict s =>
      simp only [DictInput.missingLevel, iff_true]
      exact ⟨_, rfl⟩
    | dict entries =>
      cases hx : entries.lookup l.cfg.level with
      | none =>
        simp only [DictInput.missingLevel, hx, iff_true]
        refine ⟨("SpatialPyramidPooling expect the input dict to contain key " ++
          toString l.cfg.level), ?_⟩
        simp [SPPBuilt.call, hx]
      | some x =>
        simp only [DictInput.missingLevel, hx]
        constructor
        · rintro ⟨msg, hmsg⟩
          simp [SPPBuilt.call, hx] at hmsg
        · intro hcontra
          exact absurd hcontra (by simp)
